import Mathlib

/-!
Verification of the validated `Guess` newtype from
`src/guessing_game_v2/src/main.rs`.

The Rust code defines

  pub struct Guess { value: i32 }
  impl Guess {
      pub fn new(value: i32) -> Result<Guess, io::Error> {
          if value < 1 || value > 100 {
              return Err(io::Error::other("Guess must be between 1 and 100."));
          }
          return Ok(Guess { value });
      }
      pub fn value(&self) -> i32 { self.value }
  }

We embed `i32` values as `Int` (the function performs only comparisons, so
no two's-complement wraparound can occur; the `i32` range bounds are kept
explicitly for the totality claim), `Result<Guess, io::Error>` as
`Except IoError Guess`, and the method `value(&self)` as a function that
returns the read integer together with the (unchanged) receiver, making
the immutable-borrow semantics explicit.
-/

/-- Embedding of `std::io::Error` as produced by `io::Error::other(msg)`:
only the message payload is relevant to this program. -/
structure IoError where
  msg : String
deriving DecidableEq, Repr

/-- `io::Error::other(m)` constructs an error holding message `m`. -/
def IoError.other (m : String) : IoError := ⟨m⟩

/-- Embedding of `pub struct Guess { value: i32 }`.  The field is private
in Rust; in this development "obtainable through the public interface"
is expressed by the predicate `Guess.obtainable` below. -/
structure Guess where
  value : Int
deriving DecidableEq, Repr

/-- Embedding of `Guess::new`: rejects values outside `1..=100` with the
fixed-message `io::Error`, otherwise wraps the value. -/
def Guess.new (value : Int) : Except IoError Guess :=
  if value < 1 ∨ value > 100 then
    Except.error (IoError.other "Guess must be between 1 and 100.")
  else
    Except.ok { value := value }

/-- Embedding of the getter `pub fn value(&self) -> i32`: it borrows the
receiver immutably, so we model it as returning the read integer paired
with the receiver it hands back unchanged. -/
def Guess.valueCall (g : Guess) : Int × Guess := (g.value, g)

/-- A `Guess` is obtainable through the public interface exactly when some
call to the sole constructor `Guess::new` returns it: the `value` field is
private and no mutator or raw constructor is exposed. -/
def Guess.obtainable (g : Guess) : Prop :=
  ∃ v : Int, Guess.new v = Except.ok g

/-- Smallest `i32` value. -/
def i32min : Int := -(2 ^ 31)

/-- Largest `i32` value. -/
def i32max : Int := 2 ^ 31 - 1

/-- Modelled from the spec (not from the source, which has no such type):
`DomainError::OutOfRange { value, min, max }`, the structured error the
spec's §7 prescribes for construction-time range violations. -/
inductive DomainError where
  | OutOfRange (value : Int) (min : Int) (max : Int)
deriving DecidableEq, Repr

/-- Modelled from the spec: the `create` operation of §4.1, which on an
out-of-range input fails with `DomainError::OutOfRange` carrying the
offending value and the bounds.  Used only to compare the spec's stated
error contract against the source's actual one. -/
def specCreate (min max raw : Int) : Except DomainError Guess :=
  if raw < min ∨ raw > max then
    Except.error (DomainError.OutOfRange raw min max)
  else
    Except.ok { value := raw }

/-- Claim C1: for every integer `v` with `1 ≤ v ≤ 100`, `Guess::new v`
succeeds and calling `value()` on the returned instance yields exactly
`v`. -/
theorem new_in_range_ok (v : Int) (h1 : 1 ≤ v) (h2 : v ≤ 100) :
    ∃ g : Guess, Guess.new v = Except.ok g ∧ (Guess.valueCall g).1 = v := by
  refine ⟨⟨v⟩, ?_, rfl⟩
  unfold Guess.new
  rw [if_neg]
  push_neg
  exact ⟨by omega, by omega⟩

/-- Witness for C1: the spec's scenario `create(50)` succeeds with
`get() == 50`. -/
theorem new_in_range_ok_witness :
    ∃ g : Guess, Guess.new 50 = Except.ok g ∧ (Guess.valueCall g).1 = 50 :=
  new_in_range_ok 50 (by norm_num) (by norm_num)

/-- Claim C2: for every integer `v` with `v < 1` or `v > 100`,
`Guess::new v` fails with an error and produces no instance. -/
theorem new_out_of_range_err (v : Int) (h : v < 1 ∨ v > 100) :
    (∃ e : IoError, Guess.new v = Except.error e) ∧
    ∀ g : Guess, Guess.new v ≠ Except.ok g := by
  have hnew : Guess.new v =
      Except.error (IoError.other "Guess must be between 1 and 100.") := by
    unfold Guess.new
    rw [if_pos h]
  exact ⟨⟨_, hnew⟩, fun g hg => by rw [hnew] at hg; exact Except.noConfusion hg⟩

/-- Witness for C2: `Guess::new 0` fails and yields no instance. -/
theorem new_out_of_range_err_witness :
    (∃ e : IoError, Guess.new 0 = Except.error e) ∧
    ∀ g : Guess, Guess.new 0 ≠ Except.ok g :=
  new_out_of_range_err 0 (Or.inl (by norm_num))

/-- Counterexample to claim C3: the source's error is not a structured
`DomainError::OutOfRange` carrying the offending value — `Guess::new 0`
and `Guess::new 101` return the very same fixed-message `io::Error`, so no
reading of the error can recover which out-of-range value caused it
(whereas the spec-modelled `specCreate` distinguishes the two inputs). -/
theorem new_error_not_structured :
    Guess.new 0 = Guess.new 101 ∧
    specCreate 1 100 0 ≠ specCreate 1 100 101 ∧
    ¬ ∃ f : IoError → Int, ∀ v : Int, (v < 1 ∨ v > 100) →
        ∀ e : IoError, Guess.new v = Except.error e → f e = v := by
  refine ⟨rfl, ?_, ?_⟩
  · intro hEq
    have h1 : specCreate 1 100 0 =
        Except.error (DomainError.OutOfRange 0 1 100) := rfl
    have h2 : specCreate 1 100 101 =
        Except.error (DomainError.OutOfRange 101 1 100) := rfl
    rw [h1, h2] at hEq
    exact absurd ((Except.error.injEq _ _).mp hEq) (by decide)
  rintro ⟨f, hf⟩
  have h0 : f (IoError.other "Guess must be between 1 and 100.") = 0 :=
    hf 0 (Or.inl (by norm_num)) _ rfl
  have h101 : f (IoError.other "Guess must be between 1 and 100.") = 101 :=
    hf 101 (Or.inr (by norm_num)) _ rfl
  rw [h0] at h101
  exact absurd h101 (by norm_num)

/-- Claim C3 as amended: whenever `Guess::new raw` fails — that is, for
every `raw` with `raw < 1` or `raw > 100` — the error is an `io::Error`
with the fixed message "Guess must be between 1 and 100."; in particular
`Guess::new 0` and `Guess::new 101` both yield exactly that error,
carrying neither the offending value nor the bounds. -/
theorem new_error_fixed_message (raw : Int) (h : raw < 1 ∨ raw > 100) :
    Guess.new raw =
      Except.error (IoError.other "Guess must be between 1 and 100.") := by
  unfold Guess.new
  exact if_pos h

/-- Witness for C3's amended claim, at both of its named inputs:
`Guess::new 0` and `Guess::new 101` each yield the fixed-message error. -/
theorem new_error_fixed_message_witness :
    Guess.new 0 =
      Except.error (IoError.other "Guess must be between 1 and 100.") ∧
    Guess.new 101 =
      Except.error (IoError.other "Guess must be between 1 and 100.") :=
  ⟨new_error_fixed_message 0 (Or.inl (by norm_num)),
   new_error_fixed_message 101 (Or.inr (by norm_num))⟩

/-- Claim C4: every `Guess` obtainable through the public interface
satisfies the invariant `1 ≤ value ≤ 100`, and the only exposed operation,
`value()`, hands the instance back unchanged, so it preserves the
invariant. -/
theorem obtainable_invariant (g : Guess) (h : g.obtainable) :
    1 ≤ g.value ∧ g.value ≤ 100 ∧ (Guess.valueCall g).2 = g := by
  obtain ⟨v, hv⟩ := h
  unfold Guess.new at hv
  by_cases hc : v < 1 ∨ v > 100
  · rw [if_pos hc] at hv
    exact Except.noConfusion hv
  · rw [if_neg hc] at hv
    push_neg at hc
    obtain ⟨hlo, hhi⟩ := hc
    have hg : g = ⟨v⟩ := (Except.ok.injEq _ _).mp hv.symm
    subst hg
    exact ⟨hlo, hhi, rfl⟩

/-- Witness for C4: the instance returned by `Guess::new 50` is obtainable
and satisfies the invariant. -/
theorem obtainable_invariant_witness :
    1 ≤ (Guess.mk 50).value ∧ (Guess.mk 50).value ≤ 100 ∧
    (Guess.valueCall (Guess.mk 50)).2 = Guess.mk 50 :=
  obtainable_invariant (Guess.mk 50) ⟨50, rfl⟩

/-- Claim C5: the bounds are inclusive at both ends — `Guess::new 1` and
`Guess::new 100` both succeed. -/
theorem new_bounds_inclusive :
    (∃ g : Guess, Guess.new 1 = Except.ok g) ∧
    (∃ g : Guess, Guess.new 100 = Except.ok g) :=
  ⟨⟨⟨1⟩, rfl⟩, ⟨⟨100⟩, rfl⟩⟩

/-- Claim C6: for every value in the `i32` range (including `i32::MIN` and
`i32::MAX`), `Guess::new` returns normally with either `Ok` or `Err`; the
error is surfaced in the return value, never handled fatally inside. -/
theorem new_total_on_i32 (v : Int) (_hlo : i32min ≤ v) (_hhi : v ≤ i32max) :
    (∃ g : Guess, Guess.new v = Except.ok g) ∨
    (∃ e : IoError, Guess.new v = Except.error e) := by
  unfold Guess.new
  by_cases hc : v < 1 ∨ v > 100
  · exact Or.inr ⟨_, by rw [if_pos hc]⟩
  · exact Or.inl ⟨⟨v⟩, by rw [if_neg hc]⟩

/-- Witness for C6: `Guess::new` at `i32::MIN` returns normally (here,
with an error surfaced to the caller). -/
theorem new_total_on_i32_witness :
    (∃ g : Guess, Guess.new i32min = Except.ok g) ∨
    (∃ e : IoError, Guess.new i32min = Except.error e) :=
  new_total_on_i32 i32min (le_refl i32min) (by decide)

/-- Claim C7: `Guess::new` is a pure, deterministic function of its input:
two calls with equal inputs return equal results, and two successful
results of calls with equal inputs wrap the same value. -/
theorem new_deterministic (v w : Int) (hvw : v = w) :
    Guess.new v = Guess.new w ∧
    ∀ g1 g2 : Guess, Guess.new v = Except.ok g1 →
      Guess.new w = Except.ok g2 → g1.value = g2.value := by
  subst hvw
  refine ⟨rfl, fun g1 g2 h1 h2 => ?_⟩
  rw [h1] at h2
  rw [(Except.ok.injEq _ _).mp h2]

/-- Witness for C7: two calls of `Guess::new` at 50 agree. -/
theorem new_deterministic_witness :
    Guess.new 50 = Guess.new 50 ∧
    ∀ g1 g2 : Guess, Guess.new 50 = Except.ok g1 →
      Guess.new 50 = Except.ok g2 → g1.value = g2.value :=
  new_deterministic 50 50 rfl

/-- Claim C8: calling `value()` repeatedly on the same instance always
returns the same integer, the call always succeeds (it is a total
function), and it leaves the instance unchanged. -/
theorem valueCall_idempotent (g : Guess) :
    (Guess.valueCall g).2 = g ∧
    (Guess.valueCall g).1 = (Guess.valueCall (Guess.valueCall g).2).1 :=
  ⟨rfl, rfl⟩

/-- Claim C9: on every out-of-range input, `Guess::new` returns the same
`io::Error` with the fixed message "Guess must be between 1 and 100.",
independent of whether the input was below the minimum or above the
maximum and carrying no structured data beyond that string. -/
theorem new_error_uniform_message (v : Int) (h : v < 1 ∨ v > 100) :
    Guess.new v =
      Except.error (IoError.other "Guess must be between 1 and 100.") := by
  unfold Guess.new
  rw [if_pos h]

/-- Witness for C9: `Guess::new 0` returns the fixed-message error. -/
theorem new_error_uniform_message_witness :
    Guess.new 0 =
      Except.error (IoError.other "Guess must be between 1 and 100.") :=
  new_error_uniform_message 0 (Or.inl (by norm_num))

/-- Claim C10: round-trip — for every `Guess` obtainable through the
public interface, re-validating its extracted value succeeds and yields
an instance with the same value. -/
theorem new_value_roundtrip (g : Guess) (h : g.obtainable) :
    ∃ g2 : Guess, Guess.new (Guess.valueCall g).1 = Except.ok g2 ∧
      (Guess.valueCall g2).1 = (Guess.valueCall g).1 := by
  obtain ⟨v, hv⟩ := h
  unfold Guess.new at hv
  by_cases hc : v < 1 ∨ v > 100
  · rw [if_pos hc] at hv
    exact Except.noConfusion hv
  · rw [if_neg hc] at hv
    have hg : g = ⟨v⟩ := (Except.ok.injEq _ _).mp hv.symm
    subst hg
    refine ⟨⟨v⟩, ?_, rfl⟩
    show Guess.new v = Except.ok ⟨v⟩
    unfold Guess.new
    rw [if_neg hc]

/-- Witness for C10: re-validating the value of the instance produced by
`Guess::new 50` succeeds with the same value. -/
theorem new_value_roundtrip_witness :
    ∃ g2 : Guess, Guess.new (Guess.valueCall (Guess.mk 50)).1 =
        Except.ok g2 ∧
      (Guess.valueCall g2).1 = (Guess.valueCall (Guess.mk 50)).1 :=
  new_value_roundtrip (Guess.mk 50) ⟨50, rfl⟩
